import Mathlib

/-!
Shallow embedding of the orchestration core of the customer-feedback
analysis agent (src/state.py, src/graph.py, src/nodes/supervisor.py,
src/nodes/fetch.py).

The program is a LangGraph state machine.  Nodes are pure functions from
the shared state to a *partial* state update which the engine merges into
the running state (all fields last-write-wins except `messages`, which is
append-only).  We model:
  * the shared state (src/state.py `State`) as `GState`;
  * a partial update as `Update` (a field is `none` when the node's
    returned dict omits the key; for fields whose value may itself be
    Python `None`, the update field is an `Option (Option _)`);
  * the merge as `applyUpdate`;
  * the human-approval node, step-complete node and the two routing
    functions from src/graph.py;
  * the supervisor node from src/nodes/supervisor.py, with the two LLM
    calls (intent classifier, plan generator) abstracted as parameters
    holding the *parsed* result (`none` = `json.loads` raised, i.e. the
    `except (json.JSONDecodeError, IndexError)` branch was taken);
  * the fetch node from src/nodes/fetch.py, with the external
    collaborators (`read_sheet`, pandas date parsing and the pandas
    summary of lines 130-152) abstracted as parameters.
Python truthiness of the relevant values (`None`, empty list, empty
string are falsy) is made explicit by `truthyPlan` / `truthyStr`.
-/

/-- A chat message; the code only ever appends `AIMessage`s from nodes and
`HumanMessage`s from the app layer (src/app.py line 78). -/
inductive Msg where
  | ai (content : String)
  | human (content : String)
deriving DecidableEq, Repr

/-- A data row as produced by `read_sheet` (src/tools/gsheet.py): one dict
per row, keys are the header-row column names. -/
abbrev Row := List (String × String)

/-- The parsed-intent record `query_context`
(src/state.py line 37, src/nodes/supervisor.py lines 106-114). -/
structure QueryContext where
  intent : String
  time_range : Option String
  chart_types : List String
  needs_clarification : Bool
  clarification_question : Option String
deriving DecidableEq, Repr

/-- The shared state (src/state.py `State`), restricted to the fields the
orchestration core reads or writes.  The remaining analysis artifacts
(`sentiment_result`, `clusters`, ...) are written by workers the claims do
not touch and are omitted. -/
structure GState where
  messages : List Msg := []
  user_input : String := ""
  plan : Option (List String) := none
  plan_approved : Bool := false
  current_step : Nat := 0
  awaiting_human : Bool := false
  interrupt_message : Option String := none
  sheet_url : Option String := none
  raw_data : Option (List Row) := none
  dataframe_summary : Option String := none
  query_context : Option QueryContext := none
deriving DecidableEq, Repr

/-- A partial state update: the dict a node returns.  `none` means the key
is absent from the dict (field untouched by the merge); for Python-optional
fields, `some none` means the key is present with value `None`. -/
structure Update where
  messages : List Msg := []
  user_input : Option String := none
  plan : Option (Option (List String)) := none
  plan_approved : Option Bool := none
  current_step : Option Nat := none
  awaiting_human : Option Bool := none
  interrupt_message : Option String := none
  raw_data : Option (Option (List Row)) := none
  dataframe_summary : Option (Option String) := none
  query_context : Option (Option QueryContext) := none
deriving DecidableEq, Repr

/-- LangGraph merge of a partial update into the state: `messages` uses the
`add_messages` append reducer (src/state.py line 9), every other field is
last-write-wins and untouched when the update omits it. -/
def applyUpdate (s : GState) (u : Update) : GState where
  messages := s.messages ++ u.messages
  user_input := u.user_input.getD s.user_input
  plan := u.plan.getD s.plan
  plan_approved := u.plan_approved.getD s.plan_approved
  current_step := u.current_step.getD s.current_step
  awaiting_human := u.awaiting_human.getD s.awaiting_human
  interrupt_message := (u.interrupt_message.map some).getD s.interrupt_message
  sheet_url := s.sheet_url
  raw_data := u.raw_data.getD s.raw_data
  dataframe_summary := u.dataframe_summary.getD s.dataframe_summary
  query_context := u.query_context.getD s.query_context

/-- Python truthiness of the `plan` field: `None` and `[]` are falsy. -/
def truthyPlan : Option (List String) → Bool
  | none => false
  | some l => !l.isEmpty

/-- Python truthiness of an optional string: `None` and `""` are falsy. -/
def truthyStr : Option String → Bool
  | none => false
  | some s => !s.isEmpty

/-- The fixed set of affirmative resume values recognised by the approval
gate (src/graph.py line 22). -/
def approvalResponses : List String := ["approved", "同意", "確認", "繼續", "好", "是"]

/-- The human-in-the-loop node (src/graph.py lines 16-35).  The
`interrupt(message)` call is modelled by taking the resume value
`response` as an argument; the update the node returns depends only on
that value. -/
def human_approval_node (response : String) : Update :=
  if response ∈ approvalResponses then
    { plan_approved := some true,
      awaiting_human := some false }
  else
    { user_input := some response,
      plan := some none,
      query_context := some none,
      plan_approved := some false,
      awaiting_human := some false }

/-- The step sequencer (src/graph.py lines 38-53): after a worker runs,
advance `current_step`, except that a `fetch` step that left `raw_data`
as `None` jumps the cursor to `len(plan)`. -/
def step_complete_node (state : GState) : Update :=
  let current_step := state.current_step
  let plan := state.plan.getD []
  let raw_data := state.raw_data
  if plan ≠ [] ∧ current_step < plan.length ∧ plan[current_step]? = some "fetch" ∧ raw_data = none then
    { current_step := some plan.length }
  else
    { current_step := some (current_step + 1) }

/-- The keys of the `node_map` dict in `_route_from_supervisor`
(src/graph.py lines 78-86); the dict maps each worker name to itself. -/
def worker_names : List String :=
  ["fetch", "cluster", "knowledge_map", "wordcloud", "chart", "report", "evaluate"]

/-- `node_map.get(next_step, "supervisor")` (src/graph.py line 87). -/
def node_map_get (next_step : String) : String :=
  if next_step ∈ worker_names then next_step else "supervisor"

/-- The router out of the supervisor node (src/graph.py lines 56-89,
`_route_from_supervisor`); first matching condition wins. -/
def route_from_supervisor (state : GState) : String :=
  let plan := state.plan
  let plan_approved := state.plan_approved
  let awaiting_human := state.awaiting_human
  let current_step := state.current_step
  if awaiting_human then "human_approval"
  else if truthyPlan plan ∧ ¬plan_approved then "human_approval"
  else if truthyPlan plan ∧ plan_approved ∧ (plan.getD []).length ≤ current_step then "human_approval"
  else if truthyPlan plan ∧ plan_approved ∧ current_step < (plan.getD []).length then
    node_map_get ((plan.getD []).getD current_step "")
  else "human_approval"

/-- The router out of the human-approval node (src/graph.py lines 92-101,
`_route_from_human`): both branches return `"supervisor"`. -/
def route_from_human (state : GState) : String :=
  if ¬state.plan_approved ∨ ¬truthyPlan state.plan then "supervisor"
  else "supervisor"

/-- Force `fetch` to be the first plan step
(src/nodes/supervisor.py lines 143-148). -/
def force_fetch_first (p : List String) : List String :=
  if "fetch" ∉ p then "fetch" :: p
  else if p.head? ≠ some "fetch" then "fetch" :: p.erase "fetch"
  else p

/-- Force `report` to be the last plan step at this stage
(src/nodes/supervisor.py lines 150-155). -/
def force_report_last (p : List String) : List String :=
  if "report" ∉ p then p ++ ["report"]
  else if p.getLast? ≠ some "report" then p.erase "report" ++ ["report"]
  else p

/-- Force `evaluate` to be the absolute last plan step
(src/nodes/supervisor.py lines 157-160). -/
def force_evaluate_last (p : List String) : List String :=
  (if "evaluate" ∈ p then p.erase "evaluate" else p) ++ ["evaluate"]

/-- The full fetch/report/evaluate normalization the supervisor applies to
the raw generated step list (src/nodes/supervisor.py lines 143-160). -/
def normalize_plan (raw : List String) : List String :=
  force_evaluate_last (force_report_last (force_fetch_first raw))

/-- Parsed output of the plan-generator LLM call
(src/nodes/supervisor.py lines 136-138). -/
structure PlanGenOutput where
  plan : List String
  explanation : String
deriving DecidableEq, Repr

/-- Fallback `query_context` when the intent classifier's output cannot be
parsed (src/nodes/supervisor.py lines 108-114). -/
def intent_fallback : QueryContext :=
  { intent := "full_analysis",
    time_range := none,
    chart_types := [],
    needs_clarification := false,
    clarification_question := none }

/-- Fallback raw step list when the plan generator's output cannot be
parsed (src/nodes/supervisor.py line 140). -/
def plan_fallback : List String :=
  ["fetch", "cluster", "knowledge_map", "wordcloud", "chart", "report"]

/-- Fallback explanation text (src/nodes/supervisor.py line 141). -/
def plan_fallback_explanation : String := "將執行完整分析流程"

/-- Human-readable step names used in the plan display
(src/nodes/supervisor.py lines 163-171). -/
def step_display_name : String → String
  | "fetch" => "讀取 Google Sheet 資料"
  | "cluster" => "進行情感分析與意見分群"
  | "knowledge_map" => "生成 Knowledge Map"
  | "wordcloud" => "生成文字雲"
  | "chart" => "生成圖表（圓餅圖、折線圖、長條圖）"
  | "report" => "輸出改善建議報告"
  | "evaluate" => "品質評估"
  | s => s

/-- The formatted, numbered plan listing
(src/nodes/supervisor.py lines 172-174). -/
def plan_display (plan : List String) : String :=
  String.intercalate "\n"
    (plan.enum.map (fun p => "  " ++ toString (p.1 + 1) ++ ". " ++ step_display_name p.2))

/-- The approval prompt shown with a freshly generated plan
(src/nodes/supervisor.py line 175). -/
def plan_interrupt_message (plan : List String) (explanation : String) : String :=
  "📋 執行計畫：\n" ++ plan_display plan ++ "\n\n" ++ explanation ++ "\n\n是否同意開始執行？"

/-- Human-readable step names used in the progress message of the routing
branch (src/nodes/supervisor.py lines 199-207). -/
def step_running_name : String → String
  | "fetch" => "讀取資料"
  | "cluster" => "分析分群"
  | "knowledge_map" => "生成 Knowledge Map"
  | "wordcloud" => "生成文字雲"
  | "chart" => "生成圖表"
  | "report" => "生成報告"
  | "evaluate" => "品質評估"
  | s => s

/-- The `query_context` in effect at the start of the supervisor's new-plan
branch (src/nodes/supervisor.py lines 99-114): the one stored in the state
if any, else the parsed intent-classifier result, else the deterministic
fallback when that result could not be parsed. -/
def effective_query_context (intent_result : Option QueryContext) (state : GState) :
    QueryContext :=
  match state.query_context with
  | some qc => qc
  | none => intent_result.getD intent_fallback

/-- The supervisor node (src/nodes/supervisor.py lines 85-219).
`intent_result` / `plan_result` hold the parsed output of the two LLM
calls; `none` stands for the `except (json.JSONDecodeError, IndexError)`
branch of `_parse_json_response`.  (Python detail not modelled: a
`clarification_question` key present with value `None` would render as the
literal text "None" rather than the default question; no claim depends on
this.) -/
def supervisor_node (intent_result : Option QueryContext) (plan_result : Option PlanGenOutput)
    (state : GState) : Update :=
  let plan := state.plan
  let plan_approved := state.plan_approved
  let current_step := state.current_step
  if ¬truthyPlan plan then
    let query_context := effective_query_context intent_result state
    if query_context.needs_clarification then
      let question := query_context.clarification_question.getD "請問您具體想要什麼樣的分析？"
      let cleared := { query_context with needs_clarification := false }
      { query_context := some (some cleared),
        awaiting_human := some true,
        interrupt_message := some ("🤔 " ++ question),
        messages := [Msg.ai ("🤔 " ++ question)] }
    else
      let gen := plan_result.getD { plan := plan_fallback, explanation := plan_fallback_explanation }
      let new_plan := normalize_plan gen.plan
      let interrupt_msg := plan_interrupt_message new_plan gen.explanation
      { plan := some (some new_plan),
        query_context := some (some query_context),
        plan_approved := some false,
        current_step := some 0,
        awaiting_human := some true,
        interrupt_message := some interrupt_msg,
        messages := [Msg.ai interrupt_msg] }
  else if ¬plan_approved then
    { plan_approved := some true,
      awaiting_human := some false,
      current_step := some 0,
      messages := [Msg.ai "✅ 計畫已確認，開始執行..."] }
  else if current_step < (plan.getD []).length then
    let next_step := (plan.getD []).getD current_step ""
    { current_step := some current_step,
      awaiting_human := some false,
      messages := [Msg.ai ("⏳ 正在執行：" ++ step_running_name next_step ++ "...")] }
  else
    { awaiting_human := some true,
      interrupt_message := some "✅ 所有分析已完成！是否需要調整任何部分？",
      messages := [Msg.ai "✅ 所有分析已完成！是否需要調整任何部分？"] }

/-- Outcome of the `read_sheet(sheet_url)` call as seen by the fetch node's
`try/except` (src/nodes/fetch.py lines 74-93): the row list, or the
exception kind the collaborator raised with its message text. -/
inductive ReadResult where
  | ok (rows : List Row)
  | fileNotFound (e : String)
  | valueError (e : String)
  | otherError (e : String)
deriving DecidableEq, Repr

/-- Column membership of the DataFrame built from the row dicts
(`"回饋日期" in df.columns`, src/nodes/fetch.py line 110): the columns are
the union of the rows' keys. -/
def hasColumn (rows : List Row) (c : String) : Bool :=
  rows.any (fun r => r.any (fun kv => kv.1 = c))

/-- Value of column `c` in one row dict, if the key is present. -/
def getCell (r : Row) (c : String) : Option String :=
  (r.find? (fun kv => kv.1 = c)).map (fun kv => kv.2)

/-!
The in-repo time-range parser `_parse_time_range`
(src/nodes/fetch.py lines 7-60).  It is repository code and fetch.py
calls it at line 114 OUTSIDE the try/except of lines 74-93, so any
exception it raises propagates out of `fetch_node`.  Pandas timestamps
are modelled at date granularity (`pd.Timestamp.now()` becomes a
parameter `now`), and the source's regular expressions are implemented
directly over the character list.  Character classes are modelled at
their common core: Python's `\d` and `\s` additionally accept some
further Unicode digits/spaces and `str.upper()` maps some non-ASCII
letters, which only widens the set of recognised strings; no claim
depends on such inputs.
-/

/-- An exception escaping a pandas call inside `_parse_time_range`:
`ValueError` with its message (`pd.Timestamp` on a bad year/month/day,
`int()` on a non-numeral string), `pandas.errors.OutOfBoundsDatetime` (a
`ValueError` subclass) for a date outside the nanosecond-timestamp range,
or the overflow raised by out-of-range `DateOffset` arithmetic. -/
inductive PyErr where
  | valueError (msg : String)
  | outOfBounds (y : Int) (m d : Nat)
  | overflow
deriving DecidableEq, Repr

/-- A pandas timestamp at date granularity. -/
structure Date where
  year : Int
  month : Nat
  day : Nat
deriving DecidableEq, Repr

/-- Calendar order on dates (valid dates compare lexicographically). -/
def dateLE (a b : Date) : Bool :=
  if a.year = b.year then
    if a.month = b.month then decide (a.day ≤ b.day)
    else decide (a.month < b.month)
  else decide (a.year < b.year)

def isLeapYear (y : Int) : Bool :=
  decide (y % 4 = 0 ∧ (y % 100 ≠ 0 ∨ y % 400 = 0))

/-- Length of a month (months outside 1..12 are rejected before this is
consulted). -/
def daysInMonth (y : Int) : Nat → Nat
  | 2 => if isLeapYear y then 29 else 28
  | 4 => 30
  | 6 => 30
  | 9 => 30
  | 11 => 30
  | _ => 31

/-- `pd.Timestamp.min` is 1677-09-21T00:12:43.14… and `pd.Timestamp.max`
is 2262-04-11T23:47:16.85…, so a midnight timestamp is constructible
exactly for dates of 1677-09-22 through 2262-04-11. -/
def pandas_min_date : Date := { year := 1677, month := 9, day := 22 }

def pandas_max_date : Date := { year := 2262, month := 4, day := 11 }

/-- The `pd.Timestamp(year, month, day)` constructor: validates the
calendar fields like `datetime` (year, then month, then day) and then the
nanosecond bounds; each failure raises. -/
def pd_timestamp (y : Int) (m d : Nat) : Except PyErr Date :=
  if y < 1 ∨ 9999 < y then .error (.valueError "year is out of range")
  else if m < 1 ∨ 12 < m then .error (.valueError "month must be in 1..12")
  else if d < 1 ∨ daysInMonth y m < d then .error (.valueError "day is out of range for month")
  else if dateLE pandas_min_date { year := y, month := m, day := d } ∧
      dateLE { year := y, month := m, day := d } pandas_max_date then
    .ok { year := y, month := m, day := d }
  else .error (.outOfBounds y m d)

/-- `start + pd.offsets.MonthEnd(1)` for a day-1 `start`: the last day of
the same month (raising when that day falls outside the timestamp
range). -/
def monthEnd (d : Date) : Except PyErr Date :=
  let e : Date := { year := d.year, month := d.month, day := daysInMonth d.year d.month }
  if dateLE pandas_min_date e ∧ dateLE e pandas_max_date then .ok e
  else .error (.outOfBounds e.year e.month e.day)

/-- `ts - pd.DateOffset(months=n)`: shift back `n` months, clamping the
day to the target month's length; out-of-range results raise. -/
def subMonths (d : Date) (n : Nat) : Except PyErr Date :=
  let t : Int := d.year * 12 + (d.month : Int) - 1 - (n : Int)
  let y : Int := t.fdiv 12
  let m : Nat := (t - 12 * y).toNat + 1
  let r : Date := { year := y, month := m, day := min d.day (daysInMonth y m) }
  if dateLE pandas_min_date r ∧ dateLE r pandas_max_date then .ok r
  else .error .overflow

/-- Python `str.strip()` over the character list. -/
def pyStrip (cs : List Char) : List Char :=
  ((cs.dropWhile Char.isWhitespace).reverse.dropWhile Char.isWhitespace).reverse

/-- One character of the regex class `\d`. -/
def isDigitChar (c : Char) : Bool := c.isDigit

/-- `int(...)` of a nonempty all-digit group. -/
def digitsToNat (ds : List Char) : Nat :=
  ds.foldl (fun a c => a * 10 + (c.toNat - 48)) 0

/-- `re.match(r"(\d{4})\s*Q(\d)", text)` (fetch.py line 19): anchored at
the start, no end anchor; yields `(year, q)` on a match. -/
def matchQuarter (text : List Char) : Option (Nat × Nat) :=
  match text with
  | a :: b :: c :: d :: rest =>
    if [a, b, c, d].all isDigitChar then
      match rest.dropWhile Char.isWhitespace with
      | 'Q' :: q :: _ =>
        if isDigitChar q then some (digitsToNat [a, b, c, d], q.toNat - 48) else none
      | _ => none
    else none
  | _ => none

/-- `re.match(r"(\d{4})\s*年?$", text)` (fetch.py line 30). -/
def matchYear (text : List Char) : Option Nat :=
  match text with
  | a :: b :: c :: d :: rest =>
    if [a, b, c, d].all isDigitChar then
      match rest.dropWhile Char.isWhitespace with
      | [] => some (digitsToNat [a, b, c, d])
      | ['年'] => some (digitsToNat [a, b, c, d])
      | _ => none
    else none
  | _ => none

/-- The month pattern of fetch.py line 36: anchored match of four digits,
one separator ('-', '/' or '年'), a one-or-two-digit group, an optional
'月', then end of string.  The month group admits the values 0 through
99, whether or not they name a month. -/
def matchYearMonth (text : List Char) : Option (Nat × Nat) :=
  match text with
  | a :: b :: c :: d :: sep :: rest =>
    if [a, b, c, d].all isDigitChar ∧ (sep = '-' ∨ sep = '/' ∨ sep = '年') then
      let ds := rest.takeWhile isDigitChar
      let rest2 := rest.dropWhile isDigitChar
      if (ds.length = 1 ∨ ds.length = 2) ∧ (rest2 = [] ∨ rest2 = ['月']) then
        some (digitsToNat [a, b, c, d], digitsToNat ds)
      else none
    else none
  | _ => none

/-- The `cn_map` of fetch.py lines 47-48, as a lookup on one character. -/
def cnNumeral : Char → Option Nat
  | '一' => some 1
  | '二' => some 2
  | '三' => some 3
  | '四' => some 4
  | '五' => some 5
  | '六' => some 6
  | '七' => some 7
  | '八' => some 8
  | '九' => some 9
  | '十' => some 10
  | _ => none

def isCnNumeral (c : Char) : Bool := (cnNumeral c).isSome

/-- The part of `re.search(r"最近\s*(\d+|[一二三四五六七八九十]+)\s*個月", s)`
after a literal "最近": skip spaces, take a maximal digit run (first
alternative) or else a maximal numeral-character run, skip spaces, and
require the literal "個月"; yields the captured group. -/
def matchRecentAt (cs : List Char) : Option (List Char) :=
  let cs1 := cs.dropWhile Char.isWhitespace
  let ds := cs1.takeWhile isDigitChar
  if ds ≠ [] then
    if ((cs1.dropWhile isDigitChar).dropWhile Char.isWhitespace).take 2 = ['個', '月'] then
      some ds
    else none
  else
    let zs := cs1.takeWhile isCnNumeral
    if zs ≠ [] then
      if ((cs1.dropWhile isCnNumeral).dropWhile Char.isWhitespace).take 2 = ['個', '月'] then
        some zs
      else none
    else none

/-- The scan of `re.search` for the 最近-N-個月 pattern (fetch.py
line 44): try every position, left to right, on the ORIGINAL (unstripped,
case-preserved) string. -/
def searchRecent : List Char → Option (List Char)
  | [] => none
  | c :: rest =>
    if c = '最' then
      match rest with
      | '近' :: rest2 =>
        match matchRecentAt rest2 with
        | some g => some g
        | none => searchRecent rest
      | _ => searchRecent rest
    else searchRecent rest

/-- `n = cn_map.get(num_str, None) or int(num_str)` (fetch.py line 49):
a single mapped numeral character gives its value; otherwise `int()` of
the group, which raises `ValueError` on a multi-character Chinese-numeral
group such as "十一". -/
def parseRecentCount (g : List Char) : Except PyErr Nat :=
  match g with
  | [c] =>
    match cnNumeral c with
    | some n => .ok n
    | none =>
      if g.all isDigitChar then .ok (digitsToNat g)
      else .error (.valueError "invalid literal for int() with base 10")
  | _ =>
    if g.all isDigitChar then .ok (digitsToNat g)
    else .error (.valueError "invalid literal for int() with base 10")

/-- `"半年" in time_range` (fetch.py line 55). -/
def containsHalfYear : List Char → Bool
  | '半' :: '年' :: _ => true
  | _ :: rest => containsHalfYear rest
  | [] => false

def quarter_bounds : Nat → Option ((Nat × Nat) × (Nat × Nat))
  | 1 => some ((1, 1), (3, 31))
  | 2 => some ((4, 1), (6, 30))
  | 3 => some ((7, 1), (9, 30))
  | 4 => some ((10, 1), (12, 31))
  | _ => none

/-- Patterns two through five of `_parse_time_range` (fetch.py lines
29-60), reached when the quarter pattern did not return — including the
fall-through where "(\d{4})\s*Q(\d)" matched but the quarter digit is not
1..4 (no `return` under `if q in quarter_starts`). -/
def parse_time_range_rest (now : Date) (orig text : List Char) :
    Except PyErr (Option (Date × Date)) :=
  match matchYear text with
  | some year =>
    (pd_timestamp year 1 1).bind fun s =>
      (pd_timestamp year 12 31).bind fun e => .ok (some (s, e))
  | none =>
    match matchYearMonth text with
    | some ym =>
      (pd_timestamp ym.1 ym.2 1).bind fun s =>
        (monthEnd s).bind fun e => .ok (some (s, e))
    | none =>
      match searchRecent orig with
      | some g =>
        (parseRecentCount g).bind fun n =>
          (subMonths now n).bind fun s => .ok (some (s, now))
      | none =>
        if containsHalfYear orig then
          (subMonths now 6).bind fun s => .ok (some (s, now))
        else .ok none

/-- `_parse_time_range` (src/nodes/fetch.py lines 7-60): `.ok (some _)`
models a returned `(start, end)` pair, `.ok none` the `(None, None)`
return, and `.error _` an exception escaping the function. -/
def parse_time_range (now : Date) (time_range : String) :
    Except PyErr (Option (Date × Date)) :=
  let orig := time_range.data
  let text := (pyStrip orig).map Char.toUpper
  match matchQuarter text with
  | some yq =>
    match quarter_bounds yq.2 with
    | some se =>
      (pd_timestamp yq.1 se.1.1 se.1.2).bind fun s =>
        (pd_timestamp yq.1 se.2.1 se.2.2).bind fun e => .ok (some (s, e))
    | none => parse_time_range_rest now orig text
  | none => parse_time_range_rest now orig text

/-- The boolean mask of src/nodes/fetch.py line 116 for one row:
`(df["回饋日期_dt"] >= start) & (df["回饋日期_dt"] <= end)`, where a date
that fails to parse (`errors="coerce"` gives `NaT`) compares false.
`to_datetime` abstracts the pandas date parser (which coerces and never
raises). -/
def rowInRange (to_datetime : String → Option Date) (se : Date × Date) (r : Row) : Bool :=
  match (getCell r "回饋日期").bind to_datetime with
  | some d => dateLE se.1 d && dateLE d se.2
  | none => false

/-- A failure update of the fetch node: a message-only update that leaves
`raw_data` and `dataframe_summary` absent (set to `None`). -/
def fetch_fail_update (m : String) : Update :=
  { messages := [Msg.ai m],
    raw_data := some none,
    dataframe_summary := some none }

/-- The success update of the fetch node (src/nodes/fetch.py lines
130-159); `summarize` abstracts the pandas data summary of lines 130-152
(its text is not load-bearing for any claim). -/
def fetch_success_update (summarize : List Row → String) (rows : List Row) : Update :=
  { raw_data := some (some rows),
    dataframe_summary := some (some (summarize rows)),
    messages := [Msg.ai ("📊 已成功讀取資料：\n" ++ summarize rows)] }

/-- The fetch node (src/nodes/fetch.py lines 63-159).  A `.ok` result is
the partial update the node returns; a `.error` result is an exception
escaping the node — the only raising site is the `_parse_time_range` call
of line 114, which sits OUTSIDE the node's try/except (that guards only
the `read_sheet` call of line 75).  External collaborators are
parameters: `now` is the clock read by `pd.Timestamp.now()`,
`to_datetime` the coercing pandas date parser, `summarize` the pandas
summary text of lines 130-152, and `read_sheet_result` the outcome of the
`read_sheet` call (only consulted when `sheet_url` is truthy). -/
def fetch_node (now : Date) (to_datetime : String → Option Date)
    (summarize : List Row → String) (read_sheet_result : ReadResult)
    (state : GState) : Except PyErr Update :=
  if ¬truthyStr state.sheet_url then
    .ok (fetch_fail_update "❌ 尚未提供 Google Sheet URL，請在側邊欄輸入。")
  else
    match read_sheet_result with
    | .fileNotFound e => .ok (fetch_fail_update ("❌ " ++ e))
    | .valueError e => .ok (fetch_fail_update ("❌ 資料讀取錯誤：" ++ e))
    | .otherError e => .ok (fetch_fail_update ("❌ 讀取 Google Sheet 時發生錯誤：" ++ e))
    | .ok raw_data =>
      if raw_data = [] then
        .ok (fetch_fail_update "❌ Google Sheet 中沒有資料。")
      else
        let time_range : Option String :=
          match state.query_context with
          | some qc => qc.time_range
          | none => none
        if truthyStr time_range ∧ hasColumn raw_data "回饋日期" then
          let tr := time_range.getD ""
          match parse_time_range now tr with
          | .error err => .error err
          | .ok parsed =>
            let filtered :=
              match parsed with
              | some se => raw_data.filter (rowInRange to_datetime se)
              | none => raw_data
            if filtered = [] then
              .ok (fetch_fail_update ("⚠️ 在 " ++ tr ++ " 範圍內找不到任何資料。"))
            else
              .ok (fetch_success_update summarize filtered)
        else
          .ok (fetch_success_update summarize raw_data)

/-! ## Helper lemmas about the plan normalization -/

lemma head?_force_fetch_first (p : List String) :
    (force_fetch_first p).head? = some "fetch" := by
  unfold force_fetch_first
  split
  · rfl
  · split
    · rfl
    · rename_i hmem hhead
      exact not_ne_iff.mp hhead

lemma head?_erase_of_ne {l : List String} {a b : String} (hab : a ≠ b)
    (h : l.head? = some a) : (l.erase b).head? = some a := by
  cases l with
  | nil => simp at h
  | cons c t =>
    simp only [List.head?_cons, Option.some.injEq] at h
    subst h
    rw [List.erase_cons_tail (by simp [hab])]
    rfl

lemma getLast?_erase_of_ne {l : List String} {a b : String} (hab : a ≠ b)
    (h : l.getLast? = some a) : (l.erase b).getLast? = some a := by
  by_cases hb : b ∈ l
  · obtain ⟨l₁, l₂, hnb, heq, herase⟩ := List.exists_erase_eq hb
    subst heq
    rw [herase]
    rw [List.getLast?_append] at h ⊢
    cases l₂ with
    | nil =>
      simp only [List.getLast?_singleton, Option.or_some, Option.some.injEq] at h
      exact absurd h.symm hab
    | cons c t =>
      rw [List.getLast?_cons_cons] at h
      exact h
  · rw [List.erase_of_not_mem hb]
    exact h

lemma force_report_last_spec {p : List String} (h : p.head? = some "fetch") :
    (force_report_last p).head? = some "fetch" ∧
    (force_report_last p).getLast? = some "report" := by
  unfold force_report_last
  split
  · exact ⟨by rw [List.head?_append, h]; rfl, List.getLast?_concat p⟩
  · split
    · exact ⟨by rw [List.head?_append, head?_erase_of_ne (by decide) h]; rfl,
        List.getLast?_concat _⟩
    · rename_i hmem hlast
      exact ⟨h, not_ne_iff.mp hlast⟩

lemma force_evaluate_last_spec {p : List String} (hh : p.head? = some "fetch")
    (hl : p.getLast? = some "report") :
    (force_evaluate_last p).head? = some "fetch" ∧
    (force_evaluate_last p).getLast? = some "evaluate" ∧
    (force_evaluate_last p).dropLast.getLast? = some "report" ∧
    3 ≤ (force_evaluate_last p).length := by
  unfold force_evaluate_last
  have hrh : (if "evaluate" ∈ p then p.erase "evaluate" else p).head? = some "fetch" := by
    split
    · exact head?_erase_of_ne (by decide) hh
    · exact hh
  have hrl : (if "evaluate" ∈ p then p.erase "evaluate" else p).getLast? = some "report" := by
    split
    · exact getLast?_erase_of_ne (by decide) hl
    · exact hl
  revert hrh hrl
  generalize (if "evaluate" ∈ p then p.erase "evaluate" else p) = r
  intro hrh hrl
  obtain ⟨c, t, rfl⟩ : ∃ c t, r = c :: t := by
    cases r with
    | nil => simp at hrh
    | cons c t => exact ⟨c, t, rfl⟩
  have hc : c = "fetch" := by simpa using hrh
  have ht : t ≠ [] := by
    intro hnil
    subst hnil
    rw [hc, List.getLast?_singleton] at hrl
    exact absurd hrl (by decide)
  refine ⟨by rw [List.head?_append, hrh]; rfl, List.getLast?_concat _, ?_, ?_⟩
  · rw [List.dropLast_concat]
    exact hrl
  · have hlen : 1 ≤ t.length := List.length_pos.mpr ht
    simp only [List.length_append, List.length_cons, List.length_singleton]
    omega

/-- The four shape invariants of a normalized plan, for every raw step
list the generator may have produced. -/
lemma normalize_plan_spec (raw : List String) :
    3 ≤ (normalize_plan raw).length ∧
    (normalize_plan raw).head? = some "fetch" ∧
    (normalize_plan raw).getLast? = some "evaluate" ∧
    (normalize_plan raw).dropLast.getLast? = some "report" := by
  unfold normalize_plan
  have h1 := head?_force_fetch_first raw
  have h2 := force_report_last_spec h1
  have h3 := force_evaluate_last_spec h2.1 h2.2
  exact ⟨h3.2.2.2, h3.1, h3.2.1, h3.2.2.1⟩

/-! ## Claim theorems -/

/-- C1: every plan produced by the Plan Synthesizer's new-plan branch —
whatever raw step list the generator returned, including the unparsable
case modelled by `plan_result = none` — has length at least 3, its first
element is "fetch", its last element is "evaluate", and its second-to-last
element is "report". -/
theorem supervisor_new_plan_normalized (intent_result : Option QueryContext)
    (plan_result : Option PlanGenOutput) (state : GState)
    (hplan : truthyPlan state.plan = false)
    (hclar : (effective_query_context intent_result state).needs_clarification = false) :
    ∃ p, (supervisor_node intent_result plan_result state).plan = some (some p) ∧
      3 ≤ p.length ∧ p.head? = some "fetch" ∧ p.getLast? = some "evaluate" ∧
      p.dropLast.getLast? = some "report" := by
  refine ⟨normalize_plan (plan_result.getD
      { plan := plan_fallback, explanation := plan_fallback_explanation }).plan,
    ?_, (normalize_plan_spec _).1, (normalize_plan_spec _).2.1,
    (normalize_plan_spec _).2.2.1, (normalize_plan_spec _).2.2.2⟩
  simp only [supervisor_node, hplan, hclar, Bool.false_eq_true, not_false_eq_true,
    if_true, if_false, ite_true, ite_false]

/-- C1 witness: the theorem instantiated at the initial state with both
generator results unparsable. -/
theorem supervisor_new_plan_normalized_witness :
    ∃ p, (supervisor_node none none {}).plan = some (some p) ∧
      3 ≤ p.length ∧ p.head? = some "fetch" ∧ p.getLast? = some "evaluate" ∧
      p.dropLast.getLast? = some "report" :=
  supervisor_new_plan_normalized none none {} rfl rfl

/-- C5 counterexample: the plan
`["fetch","report","evaluate","cluster","report","evaluate"]` is already
normalized in the claim's sense (first element "fetch", last "evaluate",
second-to-last "report"), yet re-applying the normalization rules yields a
different plan, `["fetch","cluster","report","evaluate","report","evaluate"]`. -/
theorem normalization_not_idempotent_cex :
    (["fetch", "report", "evaluate", "cluster", "report", "evaluate"] : List String).head? =
        some "fetch" ∧
    (["fetch", "report", "evaluate", "cluster", "report", "evaluate"] : List String).getLast? =
        some "evaluate" ∧
    (["fetch", "report", "evaluate", "cluster", "report",
        "evaluate"] : List String).dropLast.getLast? = some "report" ∧
    normalize_plan ["fetch", "report", "evaluate", "cluster", "report", "evaluate"] ≠
      ["fetch", "report", "evaluate", "cluster", "report", "evaluate"] := by
  refine ⟨rfl, rfl, rfl, ?_⟩
  decide

/-- C5 amended: re-applying the normalization is the identity on every
already-normalized plan whose "report" and "evaluate" steps occur only in
the final two positions (in particular on every plan whose steps are
pairwise distinct, such as the canonical full sequence); a normalized plan
with additional interior occurrences of "report" or "evaluate" can change
under re-normalization. -/
theorem normalization_idempotent_on_clean_plans (t : List String)
    (hr : "report" ∉ t) (he : "evaluate" ∉ t) :
    normalize_plan ("fetch" :: (t ++ ["report", "evaluate"])) =
      "fetch" :: (t ++ ["report", "evaluate"]) := by
  have hA : force_fetch_first ("fetch" :: (t ++ ["report", "evaluate"])) =
      "fetch" :: (t ++ ["report", "evaluate"]) := by
    unfold force_fetch_first
    rw [if_neg (not_not_intro (List.mem_cons_self _ _)),
      if_neg (show ¬(("fetch" :: (t ++ ["report", "evaluate"])).head? ≠ some "fetch") from
        not_ne_iff.mpr rfl)]
  have hlast : ("fetch" :: (t ++ ["report", "evaluate"])).getLast? = some "evaluate" := by
    have hsplit : "fetch" :: (t ++ ["report", "evaluate"]) =
        ("fetch" :: (t ++ ["report"])) ++ ["evaluate"] := by simp
    rw [hsplit, List.getLast?_concat]
  have herase_report : ("fetch" :: (t ++ ["report", "evaluate"])).erase "report" =
      "fetch" :: (t ++ ["evaluate"]) := by
    rw [List.erase_cons_tail (by decide), List.erase_append_right _ hr,
      List.erase_cons_head]
  have hB : force_report_last ("fetch" :: (t ++ ["report", "evaluate"])) =
      "fetch" :: (t ++ ["evaluate", "report"]) := by
    unfold force_report_last
    rw [if_neg (not_not_intro (by simp)), if_pos (by rw [hlast]; decide), herase_report]
    simp
  have herase_eval : ("fetch" :: (t ++ ["evaluate", "report"])).erase "evaluate" =
      "fetch" :: (t ++ ["report"]) := by
    rw [List.erase_cons_tail (by decide), List.erase_append_right _ he,
      List.erase_cons_head]
  have hC : force_evaluate_last ("fetch" :: (t ++ ["evaluate", "report"])) =
      "fetch" :: (t ++ ["report", "evaluate"]) := by
    unfold force_evaluate_last
    rw [if_pos (by simp), herase_eval]
    simp
  unfold normalize_plan
  rw [hA, hB, hC]

/-- C5 amended witness: idempotence at the concrete clean plan
`["fetch", "cluster", "report", "evaluate"]`. -/
theorem normalization_idempotent_witness :
    normalize_plan ("fetch" :: (["cluster"] ++ ["report", "evaluate"])) =
      "fetch" :: (["cluster"] ++ ["report", "evaluate"]) :=
  normalization_idempotent_on_clean_plans ["cluster"] (by decide) (by decide)

/-- C2 counterexample: in the state with no plan at all (and
`awaiting_human` false) the Router returns `"human_approval"` (the
Approval Gate), not `"supervisor"` (the Plan Synthesizer) as rule (5) of
the claim states: the fall-through of `_route_from_supervisor`
(src/graph.py line 89) is `"human_approval"`.  Also, in an approved
in-range state whose cursor step name is outside the seven-worker
catalog, the Router returns `"supervisor"`, not a Worker Unit of that
name, so rule (4) as stated fails there too
(`node_map.get(next_step, "supervisor")`, src/graph.py line 87). -/
theorem router_no_plan_cex :
    route_from_supervisor {} = "human_approval" ∧
    route_from_supervisor {} ≠ "supervisor" ∧
    route_from_supervisor { plan := some ["bogus"], plan_approved := true } = "supervisor" ∧
    route_from_supervisor { plan := some ["bogus"], plan_approved := true } ≠ "bogus" := by
  refine ⟨rfl, by decide, ?_, by decide⟩
  decide

/-- C2 amended: the Router is a pure function of the Shared State applying
these rules in first-match order: (1) `awaiting_human` true maps to the
Approval Gate; (2) plan present and `plan_approved` false maps to the
Approval Gate; (3) plan present, approved, and `current_step >= len(plan)`
maps to the Approval Gate; (4) plan present, approved, and
`current_step < len(plan)` maps to the Worker Unit named by
`plan[current_step]` when that name is one of the seven catalog steps, and
to the Plan Synthesizer otherwise; (5) otherwise (no plan at all) it maps
to the Approval Gate. -/
theorem router_decision_table (s : GState) :
    (s.awaiting_human = true → route_from_supervisor s = "human_approval") ∧
    (s.awaiting_human = false → truthyPlan s.plan = true → s.plan_approved = false →
      route_from_supervisor s = "human_approval") ∧
    (s.awaiting_human = false → truthyPlan s.plan = true → s.plan_approved = true →
      (s.plan.getD []).length ≤ s.current_step →
      route_from_supervisor s = "human_approval") ∧
    (s.awaiting_human = false → truthyPlan s.plan = true → s.plan_approved = true →
      s.current_step < (s.plan.getD []).length →
      route_from_supervisor s = node_map_get ((s.plan.getD []).getD s.current_step "")) ∧
    (s.awaiting_human = false → truthyPlan s.plan = false →
      route_from_supervisor s = "human_approval") := by
  refine ⟨?_, ?_, ?_, ?_, ?_⟩
  · intro h1
    simp [route_from_supervisor, h1]
  · intro h1 h2 h3
    simp [route_from_supervisor, h1, h2, h3]
  · intro h1 h2 h3 h4
    simp only [route_from_supervisor, h1, h2, h3]
    simp [h4, Nat.not_lt.mpr h4]
  · intro h1 h2 h3 h4
    simp only [route_from_supervisor, h1, h2, h3]
    simp [h4, Nat.not_le.mpr h4]
  · intro h1 h2
    simp [route_from_supervisor, h1, h2]

/-- C3: after a worker runs, the Step Sequencer jumps `current_step` to
`len(plan)` exactly when the plan is present, `current_step` is in range,
the step at the cursor is "fetch" and `raw_data` is absent; in every other
case it sets `current_step` to the previous value plus one. -/
theorem step_sequencer_advance (s : GState) :
    (∀ p, s.plan = some p → s.current_step < p.length →
      p[s.current_step]? = some "fetch" → s.raw_data = none →
      (step_complete_node s).current_step = some p.length) ∧
    ((¬∃ p, s.plan = some p ∧ s.current_step < p.length ∧
        p[s.current_step]? = some "fetch" ∧ s.raw_data = none) →
      (step_complete_node s).current_step = some (s.current_step + 1)) := by
  constructor
  · intro p hp hlt hfetch hrd
    have hne : p ≠ [] := List.ne_nil_of_length_pos (Nat.lt_of_le_of_lt (Nat.zero_le _) hlt)
    simp only [step_complete_node, hp, Option.getD_some]
    rw [if_pos ⟨hne, hlt, hfetch, hrd⟩]
  · intro hn
    simp only [step_complete_node]
    split
    · rename_i hcond
      obtain ⟨hne, hlt, hfetch, hrd⟩ := hcond
      exfalso
      cases hp : s.plan with
      | none =>
        rw [hp] at hne
        exact hne rfl
      | some p =>
        rw [hp, Option.getD_some] at hne hlt hfetch
        exact hn ⟨p, hp, hlt, hfetch, hrd⟩
    · rfl

/-- C4: for every suspended state, an approval token sets `plan_approved`
true and `awaiting_human` false and changes nothing else (in particular
`plan`, `query_context`, `user_input` and `current_step` are unchanged);
any other resume value overwrites `user_input`, clears `plan` and
`query_context` to absent, and sets `plan_approved` and `awaiting_human`
to false. -/
theorem approval_gate_effects (s : GState) (response : String)
    (hsusp : s.awaiting_human = true) :
    (response ∈ approvalResponses →
      applyUpdate s (human_approval_node response) =
        { s with plan_approved := true, awaiting_human := false }) ∧
    (response ∉ approvalResponses →
      applyUpdate s (human_approval_node response) =
        { s with user_input := response, plan := none, query_context := none,
                 plan_approved := false, awaiting_human := false }) := by
  obtain ⟨msgs, ui, pl, pa, cs, ah, im, su, rd, ds, qc⟩ := s
  constructor
  · intro hr
    simp [applyUpdate, human_approval_node, hr]
  · intro hr
    simp [applyUpdate, human_approval_node, hr]

/-- C4 witness: the theorem at a concrete suspended state, for the
approval token "approved". -/
theorem approval_gate_effects_witness :
    ("approved" ∈ approvalResponses →
      applyUpdate { awaiting_human := true } (human_approval_node "approved") =
        { ({ awaiting_human := true } : GState) with
            plan_approved := true, awaiting_human := false }) ∧
    ("approved" ∉ approvalResponses →
      applyUpdate { awaiting_human := true } (human_approval_node "approved") =
        { ({ awaiting_human := true } : GState) with
            user_input := "approved", plan := none, query_context := none,
            plan_approved := false, awaiting_human := false }) :=
  approval_gate_effects { awaiting_human := true } "approved" rfl

/-- C6: when the plan generator's output cannot be parsed
(`plan_result = none`), the Plan Synthesizer produces exactly the
canonical full sequence as the final plan, and its update is literally the
one a successfully parsed fallback plan would produce — the normal
approval prompt, with `awaiting_human` set — so the condition is never
surfaced to the user as an error. -/
theorem plan_parse_failure_fallback (intent_result : Option QueryContext) (s : GState)
    (hplan : truthyPlan s.plan = false)
    (hclar : (effective_query_context intent_result s).needs_clarification = false) :
    (supervisor_node intent_result none s).plan =
      some (some ["fetch", "cluster", "knowledge_map", "wordcloud", "chart",
        "report", "evaluate"]) ∧
    supervisor_node intent_result none s =
      supervisor_node intent_result
        (some { plan := plan_fallback, explanation := plan_fallback_explanation }) s ∧
    (supervisor_node intent_result none s).messages =
      [Msg.ai (plan_interrupt_message
        ["fetch", "cluster", "knowledge_map", "wordcloud", "chart", "report", "evaluate"]
        plan_fallback_explanation)] ∧
    (supervisor_node intent_result none s).awaiting_human = some true := by
  have hfb : normalize_plan plan_fallback =
      ["fetch", "cluster", "knowledge_map", "wordcloud", "chart", "report", "evaluate"] := by
    decide
  refine ⟨?_, ?_, ?_, ?_⟩ <;>
    simp [supervisor_node, hplan, hclar, hfb, Option.getD]

/-- C6 witness: the theorem at the initial state with the intent
classifier result also unparsable. -/
theorem plan_parse_failure_fallback_witness :
    (supervisor_node none none {}).plan =
      some (some ["fetch", "cluster", "knowledge_map", "wordcloud", "chart",
        "report", "evaluate"]) ∧
    supervisor_node none none {} =
      supervisor_node none
        (some { plan := plan_fallback, explanation := plan_fallback_explanation }) {} ∧
    (supervisor_node none none {}).messages =
      [Msg.ai (plan_interrupt_message
        ["fetch", "cluster", "knowledge_map", "wordcloud", "chart", "report", "evaluate"]
        plan_fallback_explanation)] ∧
    (supervisor_node none none {}).awaiting_human = some true :=
  plan_parse_failure_fallback none {} rfl rfl

/-- A state paused at the terminal completion gate: the three-step plan is
approved and fully consumed (`current_step = len(plan)`), the machine is
suspended on the completion prompt. -/
def completion_state : GState :=
  { plan := some ["fetch", "report", "evaluate"],
    plan_approved := true,
    current_step := 3,
    awaiting_human := true,
    interrupt_message := some "✅ 所有分析已完成！是否需要調整任何部分？" }

/-- The state right after the suspended approval gate is resumed with the
approval token `"approved"`. -/
def resumed_completion_state : GState :=
  applyUpdate completion_state (human_approval_node "approved")

/-- The state after the supervisor node then runs (the LLM results are
irrelevant: a plan is present). -/
def after_completion_supervisor : GState :=
  applyUpdate resumed_completion_state
    (supervisor_node none none resumed_completion_state)

/-- C7 (code behaviour at the failing input): resuming the terminal
completion pause with an approval token does NOT leave the run idle — the
gate routes back to the supervisor, whose all-steps-complete branch sets
`awaiting_human` true with the same completion prompt again, and the
Router then sends control straight back to the Approval Gate, re-entering
the paused state.  The graph has no edge to END at all
(src/graph.py lines 109-163), so the claimed idle state is unreachable. -/
theorem completion_gate_resume_repauses :
    route_from_human resumed_completion_state = "supervisor" ∧
    after_completion_supervisor.awaiting_human = true ∧
    after_completion_supervisor.interrupt_message =
      some "✅ 所有分析已完成！是否需要調整任何部分？" ∧
    route_from_supervisor after_completion_supervisor = "human_approval" := by
  refine ⟨rfl, ?_, ?_, ?_⟩ <;> decide

/-- C9: whenever the supervisor runs with a plan present but not yet
approved, it returns exactly the auto-approval update: `plan_approved`
true, `current_step` 0, `awaiting_human` false, plus a confirmation
message — no Approval Gate resume value is involved. -/
theorem supervisor_auto_approves (intent_result : Option QueryContext)
    (plan_result : Option PlanGenOutput) (s : GState)
    (hplan : truthyPlan s.plan = true) (happr : s.plan_approved = false)
    (_hah : s.awaiting_human = false) :
    supervisor_node intent_result plan_result s =
      { plan_approved := some true,
        awaiting_human := some false,
        current_step := some 0,
        messages := [Msg.ai "✅ 計畫已確認，開始執行..."] } := by
  simp [supervisor_node, hplan, happr]

/-- C9 witness: the theorem at a concrete state holding an unapproved
three-step plan. -/
theorem supervisor_auto_approves_witness :
    supervisor_node none none { plan := some ["fetch", "report", "evaluate"] } =
      { plan_approved := some true,
        awaiting_human := some false,
        current_step := some 0,
        messages := [Msg.ai "✅ 計畫已確認，開始執行..."] } :=
  supervisor_auto_approves none none { plan := some ["fetch", "report", "evaluate"] }
    rfl rfl rfl

/-- C10: the Approval Gate takes its approval branch for a resume value
iff that value is exactly one of the six strings "approved", "同意",
"確認", "繼續", "好", "是"; every other value — including "yes" and "ok"
— takes the free-text branch, which clears the plan
(`plan` set to absent) and leaves the plan unapproved. -/
theorem approval_token_classification :
    (∀ response : String,
      (human_approval_node response =
        { plan_approved := some true, awaiting_human := some false }) ↔
      (response = "approved" ∨ response = "同意" ∨ response = "確認" ∨
        response = "繼續" ∨ response = "好" ∨ response = "是")) ∧
    (human_approval_node "yes").plan = some none ∧
    (human_approval_node "yes").plan_approved = some false ∧
    (human_approval_node "ok").plan = some none ∧
    (human_approval_node "ok").plan_approved = some false := by
  refine ⟨?_, by decide, by decide, by decide, by decide⟩
  intro response
  constructor
  · intro heq
    by_cases hmem : response ∈ approvalResponses
    · simpa [approvalResponses] using hmem
    · rw [human_approval_node, if_neg hmem] at heq
      have hplan := congrArg Update.plan heq
      simp at hplan
  · intro hdisj
    have hmem : response ∈ approvalResponses := by
      rcases hdisj with h | h | h | h | h | h <;> (subst h; decide)
    rw [human_approval_node, if_pos hmem]

lemma truthyStr_none : truthyStr (none : Option String) = false := rfl

/-- Case analysis of the fetch node over every input: it either returns
an update, or it raises exactly the exception that the in-repo
`_parse_time_range` raises on the state's own `time_range` — no other
raising path exists. -/
lemma fetch_node_total_or_parse_error (now : Date) (td : String → Option Date)
    (sm : List Row → String) (rr : ReadResult) (s : GState) :
    (∃ u, fetch_node now td sm rr s = .ok u) ∨
    (∃ qc tr err, s.query_context = some qc ∧ qc.time_range = some tr ∧
      parse_time_range now tr = .error err ∧ fetch_node now td sm rr s = .error err) := by
  by_cases hurl : truthyStr s.sheet_url = true
  · cases rr with
    | fileNotFound e =>
      exact Or.inl ⟨fetch_fail_update ("❌ " ++ e), by simp [fetch_node, hurl]⟩
    | valueError e =>
      exact Or.inl ⟨fetch_fail_update ("❌ 資料讀取錯誤：" ++ e), by simp [fetch_node, hurl]⟩
    | otherError e =>
      exact Or.inl ⟨fetch_fail_update ("❌ 讀取 Google Sheet 時發生錯誤：" ++ e),
        by simp [fetch_node, hurl]⟩
    | ok rows =>
      by_cases hrows : rows = []
      · exact Or.inl ⟨fetch_fail_update "❌ Google Sheet 中沒有資料。",
          by simp [fetch_node, hurl, hrows]⟩
      · cases hqc : s.query_context with
        | none =>
          exact Or.inl ⟨fetch_success_update sm rows,
            by simp [fetch_node, hurl, hrows, hqc, truthyStr_none]⟩
        | some qc =>
          cases htr : qc.time_range with
          | none =>
            exact Or.inl ⟨fetch_success_update sm rows,
              by simp [fetch_node, hurl, hrows, hqc, htr, truthyStr_none]⟩
          | some tr =>
            by_cases hcond : truthyStr (some tr) = true ∧ hasColumn rows "回饋日期" = true
            · cases hp : parse_time_range now tr with
              | error err =>
                refine Or.inr ⟨qc, tr, err, rfl, htr, hp, ?_⟩
                simp [fetch_node, hurl, hrows, hqc, htr, hcond.1, hcond.2, hp]
              | ok parsed =>
                by_cases hf : (match parsed with
                    | some se => rows.filter (rowInRange td se)
                    | none => rows) = []
                · refine Or.inl ⟨fetch_fail_update ("⚠️ 在 " ++ tr ++ " 範圍內找不到任何資料。"), ?_⟩
                  simp only [fetch_node, hqc, htr, Option.getD_some, hp]
                  simp [hurl, hrows, hcond.1, hcond.2, hf]
                · refine Or.inl ⟨fetch_success_update sm (match parsed with
                    | some se => rows.filter (rowInRange td se)
                    | none => rows), ?_⟩
                  simp only [fetch_node, hqc, htr, Option.getD_some, hp]
                  simp [hurl, hrows, hcond.1, hcond.2, hf]
                  cases parsed <;> rfl
            · refine Or.inl ⟨fetch_success_update sm rows, ?_⟩
              simp only [fetch_node, hqc, htr]
              rw [if_neg (by simp [hurl]), if_neg hrows, if_neg hcond]
  · exact Or.inl ⟨fetch_fail_update "❌ 尚未提供 Google Sheet URL，請在側邊欄輸入。",
      by simp [fetch_node, hurl]⟩

/-- C8 counterexample: the fetch worker CAN raise.  With a configured
sheet, a successful nonempty read with a 回饋日期 column, and
`query_context.time_range = "2024-13"`, the month pattern of
`_parse_time_range` (fetch.py line 36) matches with month 13 and
`pd.Timestamp(2024, 13, 1)` (line 39) raises
`ValueError: month must be in 1..12`; the call sits outside the node's
try/except, so the exception escapes `fetch_node`. -/
theorem fetch_raises_on_invalid_month_cex :
    parse_time_range { year := 2025, month := 1, day := 1 } "2024-13" =
      .error (.valueError "month must be in 1..12") ∧
    fetch_node { year := 2025, month := 1, day := 1 } (fun _ => none) (fun _ => "")
      (.ok [[("回饋日期", "2024-01-15"), ("回饋內容", "回應太慢")]])
      { sheet_url := some "https://docs.google.com/spreadsheets/d/abc123",
        query_context := some { intent := "specific_query",
                                time_range := some "2024-13",
                                chart_types := [],
                                needs_clarification := false,
                                clarification_question := none } } =
      .error (.valueError "month must be in 1..12") := by
  exact ⟨rfl, rfl⟩

/-- C8 amended: the fetch worker catches every exception of the
`read_sheet` collaborator, and each failure sub-kind — no source URL
configured, source not found, value/format error, other transport
failure, source empty, no rows after time-range filtering — yields a
distinct user-facing error message (instantiated here with the
collaborator error texts the repository itself raises,
src/tools/gsheet.py lines 31-33, 73 and 109) in a message-only update
with `raw_data` and `dataframe_summary` left absent.  It is however not
exception-free for every input state: the in-repo time-range parser runs
outside the try/except, and when (and only when) it raises on the
state's `time_range`, its exception propagates out of the node; in every
other case the node returns an update and never raises. -/
theorem fetch_node_failure_updates :
    (∀ now td sm rr (s : GState), truthyStr s.sheet_url = false →
      fetch_node now td sm rr s =
        .ok (fetch_fail_update "❌ 尚未提供 Google Sheet URL，請在側邊欄輸入。")) ∧
    (∀ now td sm e (s : GState), truthyStr s.sheet_url = true →
      fetch_node now td sm (.fileNotFound e) s = .ok (fetch_fail_update ("❌ " ++ e))) ∧
    (∀ now td sm e (s : GState), truthyStr s.sheet_url = true →
      fetch_node now td sm (.valueError e) s =
        .ok (fetch_fail_update ("❌ 資料讀取錯誤：" ++ e))) ∧
    (∀ now td sm e (s : GState), truthyStr s.sheet_url = true →
      fetch_node now td sm (.otherError e) s =
        .ok (fetch_fail_update ("❌ 讀取 Google Sheet 時發生錯誤：" ++ e))) ∧
    (∀ now td sm (s : GState), truthyStr s.sheet_url = true →
      fetch_node now td sm (.ok []) s =
        .ok (fetch_fail_update "❌ Google Sheet 中沒有資料。")) ∧
    (∀ now td sm rows (s : GState) qc tr se, truthyStr s.sheet_url = true →
      rows ≠ [] → s.query_context = some qc → qc.time_range = some tr →
      truthyStr (some tr) = true → hasColumn rows "回饋日期" = true →
      parse_time_range now tr = .ok (some se) → rows.filter (rowInRange td se) = [] →
      fetch_node now td sm (.ok rows) s =
        .ok (fetch_fail_update ("⚠️ 在 " ++ tr ++ " 範圍內找不到任何資料。"))) ∧
    (∀ now td sm rows (s : GState) qc tr err, truthyStr s.sheet_url = true →
      rows ≠ [] → s.query_context = some qc → qc.time_range = some tr →
      truthyStr (some tr) = true → hasColumn rows "回饋日期" = true →
      parse_time_range now tr = .error err →
      fetch_node now td sm (.ok rows) s = .error err) ∧
    (∀ now td sm rr (s : GState),
      (∃ u, fetch_node now td sm rr s = .ok u) ∨
      (∃ qc tr err, s.query_context = some qc ∧ qc.time_range = some tr ∧
        parse_time_range now tr = .error err ∧ fetch_node now td sm rr s = .error err)) ∧
    (∀ m, (fetch_fail_update m).raw_data = some none ∧
      (fetch_fail_update m).dataframe_summary = some none ∧
      (fetch_fail_update m).messages = [Msg.ai m] ∧
      (fetch_fail_update m).user_input = none ∧
      (fetch_fail_update m).plan = none ∧
      (fetch_fail_update m).plan_approved = none ∧
      (fetch_fail_update m).current_step = none ∧
      (fetch_fail_update m).awaiting_human = none ∧
      (fetch_fail_update m).interrupt_message = none ∧
      (fetch_fail_update m).query_context = none) ∧
    (["❌ 尚未提供 Google Sheet URL，請在側邊欄輸入。",
      "❌ 找不到 credentials.json，請將 Google OAuth2 憑證檔案放置於 credentials.json",
      "❌ 資料讀取錯誤：Google Sheet 中沒有資料",
      "❌ 讀取 Google Sheet 時發生錯誤：HttpError 500",
      "❌ Google Sheet 中沒有資料。",
      "⚠️ 在 2024Q4 範圍內找不到任何資料。"] : List String).Pairwise (· ≠ ·) := by
  refine ⟨?_, ?_, ?_, ?_, ?_, ?_, ?_, ?_, ?_, ?_⟩
  · intro now td sm rr s h
    simp [fetch_node, h]
  · intro now td sm e s h
    simp [fetch_node, h]
  · intro now td sm e s h
    simp [fetch_node, h]
  · intro now td sm e s h
    simp [fetch_node, h]
  · intro now td sm s h
    simp [fetch_node, h]
  · intro now td sm rows s qc tr se hurl hrows hqc htr htruthy hcol hp hfilter
    simp only [fetch_node, hqc, htr, Option.getD_some, hp]
    simp [hurl, hrows, htruthy, hcol, hfilter]
  · intro now td sm rows s qc tr err hurl hrows hqc htr htruthy hcol hp
    simp only [fetch_node, hqc, htr, Option.getD_some, hp]
    simp [hurl, hrows, htruthy, hcol]
  · exact fetch_node_total_or_parse_error
  · intro m
    exact ⟨rfl, rfl, rfl, rfl, rfl, rfl, rfl, rfl, rfl, rfl⟩
  · decide
